import Mathlib

/-!
# Billing-group resource handlers of the Aiven Terraform provider

A shallow embedding of `aiven/resource_billing_group.go`: the schema, the five lifecycle
handlers (Create, Read, Update, Delete, State) and the request they send to the remote API.

* The remote API client (`m.(*aiven.Client)`) is external: its calls are fields of `Env`,
  acting on an arbitrary remote state `σ`.
* The Terraform SDK record (`*schema.ResourceData`) is modelled as an identifier plus a map
  from attribute name to value; whether `d.Set` refuses a write is a field of `Env`.
* Every handler returns an `Outcome`: the diagnostics, the local record as the handler left
  it, the remote state, and the remote calls it issued, in order.
* Helpers of the provider that are not in the source files at hand are modelled from the
  specification; each such definition says so.
-/

namespace Aiven

/-! ## Go values -/

/-- A non-nil Go `error`: its `Error()` text and whether `aiven.IsNotFound` recognises it.
A possibly-nil `error` is an `Option GoError`. -/
structure GoError where
  text : String
  notFound : Bool
deriving DecidableEq, Repr

/-- The client library's `aiven.IsNotFound(err)`; a nil error is not a not-found error. -/
def IsNotFound : Option GoError → Bool
  | none => false
  | some e => e.notFound

/-- A Go slice: `none` is the nil slice, `some l` a non-nil slice with elements `l`. -/
abbrev Slice (α : Type) := Option (List α)

/-- The Go values the handlers pass to `d.Set`. -/
inductive GoValue where
  | string (s : String)
  | stringPtr (p : Option String)
  | stringSlice (l : Slice String)
deriving DecidableEq, Repr

/-! ## Diagnostics (`terraform-plugin-sdk/v2/diag`) -/

inductive Severity where
  | Error
  | Warning
deriving DecidableEq, Repr

structure Diagnostic where
  severity : Severity
  summary : String
deriving DecidableEq, Repr

abbrev Diagnostics := List Diagnostic

/-- The function `diag.FromErr`: nil for a nil error, else one error diagnostic whose summary
is the error text. -/
def diag.FromErr : Option GoError → Diagnostics
  | none => []
  | some e => [{ severity := Severity.Error, summary := e.text }]

/-- The function `diag.Errorf`, applied to the already formatted message. -/
def diag.Errorf (msg : String) : Diagnostics :=
  [{ severity := Severity.Error, summary := msg }]

/-- The method `Diagnostics.HasError`. -/
def Diagnostics.HasError (ds : Diagnostics) : Bool :=
  ds.any (fun x => x.severity == Severity.Error)

/-! ## Remote API types (`aiven-go-client`) -/

structure ContactEmail where
  Email : String
deriving DecidableEq, Repr

/-- The struct `aiven.BillingGroupRequest`, with the fields the handlers fill in. -/
structure BillingGroupRequest where
  BillingGroupName : String
  AccountId : Option String
  CardId : Option String
  VatId : Option String
  BillingCurrency : Option String
  BillingExtraText : Option String
  BillingEmails : Slice ContactEmail
  Company : Option String
  AddressLines : Slice String
  CountryCode : Option String
  City : Option String
  ZipCode : Option String
  State : Option String
deriving DecidableEq, Repr

/-- The struct `aiven.BillingGroup`: the request fields plus the remote identifier. -/
structure BillingGroup extends BillingGroupRequest where
  Id : String
deriving DecidableEq, Repr

/-- A remote call issued by a handler. -/
inductive Call where
  | cardGet (cardID : String)
  | bgCreate (req : BillingGroupRequest)
  | bgGet (id : String)
  | bgUpdate (id : String) (req : BillingGroupRequest)
  | bgDelete (id : String)
deriving DecidableEq, Repr

/-- The request a create or update call carries; the other calls carry none. -/
def Call.request : Call → Option BillingGroupRequest
  | Call.bgCreate req => some req
  | Call.bgUpdate _ req => some req
  | _ => none

/-- Everything outside the provider that the handlers depend on: the API client acting on a
remote state `σ`, the SDK check that makes `d.Set` fail, and the `%v` rendering of
diagnostics used in the import error text. -/
structure Env (σ : Type) where
  CardsGet : String → σ → Except GoError String × σ
  BillingGroupCreate : BillingGroupRequest → σ → Except GoError BillingGroup × σ
  BillingGroupGet : String → σ → Except GoError BillingGroup × σ
  BillingGroupUpdate : String → BillingGroupRequest → σ → Except GoError BillingGroup × σ
  BillingGroupDelete : String → σ → Option GoError × σ
  setErr : String → GoValue → Option GoError
  sprintDiags : Diagnostics → String

/-! ## The local record (`schema.ResourceData`) -/

/-- A stored attribute value: a string, or a set of strings given by its members. -/
inductive Attr where
  | str (s : String)
  | set (items : List String)
deriving DecidableEq, Repr

/-- The local record: the identifier and the attribute values; `none` is an unset attribute. -/
structure ResourceData where
  id : String
  attrs : String → Option Attr

/-- What `d.Set` stores for a Go value: a pointer is dereferenced, a nil pointer unsets the
attribute, a slice becomes a set. -/
def GoValue.toAttr : GoValue → Option Attr
  | GoValue.string s => some (Attr.str s)
  | GoValue.stringPtr none => none
  | GoValue.stringPtr (some s) => some (Attr.str s)
  | GoValue.stringSlice l => some (Attr.set (l.getD []))

/-- The method `d.Id()`. -/
def ResourceData.Id (d : ResourceData) : String := d.id

/-- The method `d.SetId(v)`. -/
def ResourceData.SetId (d : ResourceData) (v : String) : ResourceData :=
  { d with id := v }

/-- The record after a successful write of `v` under `key`. -/
def ResourceData.write (d : ResourceData) (key : String) (v : GoValue) : ResourceData :=
  { d with attrs := Function.update d.attrs key v.toAttr }

/-- The method `d.Set(key, v)`: returns the SDK's error and leaves the record alone when the
write is refused, else stores the value. -/
def ResourceData.Set {σ : Type} (env : Env σ) (d : ResourceData) (key : String) (v : GoValue) :
    Option GoError × ResourceData :=
  match env.setErr key v with
  | some e => (some e, d)
  | none => (none, d.write key v)

/-- The expression `d.Get(key).(string)`: the stored string, or the zero value. -/
def ResourceData.GetString (d : ResourceData) (key : String) : String :=
  match d.attrs key with
  | some (Attr.str s) => s
  | _ => ""

/-- The method `(*schema.Set).List()`: the members without repetition, in an order that does
not depend on the order of insertion. -/
def setList (items : List String) : List String :=
  (items.insertionSort (fun a b => a ≤ b)).dedup

/-- The expression `d.Get(key).(*schema.Set).List()`; an unset attribute is the empty set. -/
def ResourceData.GetSetList (d : ResourceData) (key : String) : List String :=
  match d.attrs key with
  | some (Attr.set l) => setList l
  | _ => []

/-- The method `d.GetOk(key)`: the value, and whether it is set to a non-zero value. -/
def ResourceData.GetOk (d : ResourceData) (key : String) : Option Attr × Bool :=
  match d.attrs key with
  | none => (none, false)
  | some (Attr.str s) => (some (Attr.str s), decide (s ≠ ""))
  | some (Attr.set l) => (some (Attr.set l), !(setList l).isEmpty)

/-! ## The schema -/

inductive ValueType where
  | TypeString
  | TypeSet
deriving DecidableEq, Repr

/-- One entry of a schema map: the value type and the Required / Optional flags. -/
structure Schema where
  Typ : ValueType
  Required : Bool
  Optional : Bool
deriving DecidableEq, Repr

/-- The variable `aivenBillingGroupSchema`, in the order of its declaration. -/
def aivenBillingGroupSchema : List (String × Schema) :=
  [ ("name", { Typ := ValueType.TypeString, Required := true, Optional := false }),
    ("card_id", { Typ := ValueType.TypeString, Required := false, Optional := true }),
    ("vat_id", { Typ := ValueType.TypeString, Required := false, Optional := true }),
    ("account_id", { Typ := ValueType.TypeString, Required := false, Optional := true }),
    ("billing_currency", { Typ := ValueType.TypeString, Required := false, Optional := true }),
    ("billing_extra_text", { Typ := ValueType.TypeString, Required := false, Optional := true }),
    ("billing_emails", { Typ := ValueType.TypeSet, Required := false, Optional := true }),
    ("company", { Typ := ValueType.TypeString, Required := false, Optional := true }),
    ("address_lines", { Typ := ValueType.TypeSet, Required := false, Optional := true }),
    ("country_code", { Typ := ValueType.TypeString, Required := false, Optional := true }),
    ("city", { Typ := ValueType.TypeString, Required := false, Optional := true }),
    ("zip_code", { Typ := ValueType.TypeString, Required := false, Optional := true }),
    ("state", { Typ := ValueType.TypeString, Required := false, Optional := true }) ]

/-- The names of the attributes the schema declares. -/
def schemaKeys : List String := aivenBillingGroupSchema.map Prod.fst

/-- The names of the attributes the schema declares Optional. -/
def optionalKeys : List String :=
  (aivenBillingGroupSchema.filter (fun p => p.2.Optional)).map Prod.fst

/-! ## Provider helpers that are not among the source files -/

/-- Modelled from the spec: `resourceReadHandleNotFound` is not among the source files.
Spec 4.3: if the API signals "not found", Read clears the local identifier and returns
success; any other API error is surfaced to the caller. -/
def resourceReadHandleNotFound (err : Option GoError) (d : ResourceData) :
    Option GoError × ResourceData :=
  if IsNotFound err then (none, d.SetId "") else (err, d)

/-- Modelled from the spec: `getLongCardID` is not among the source files. Spec 2 and 4.2: a
short card reference is resolved to the canonical long identifier through a separate lookup
call; spec 4.1: an optional field absent locally is sent as nil, so the empty reference
resolves to nil without a lookup. -/
def getLongCardID {σ : Type} (env : Env σ) (cardID : String) (s : σ) :
    Except GoError (Option String) × σ × List Call :=
  if cardID = "" then (Except.ok none, s, [])
  else
    match env.CardsGet cardID s with
    | (Except.error e, s1) => (Except.error e, s1, [Call.cardGet cardID])
    | (Except.ok long, s1) => (Except.ok (some long), s1, [Call.cardGet cardID])

/-- Modelled from the spec: `optionalStringPointer` is not among the source files. Spec 4.1:
an optional field absent locally is not sent (nil, not the empty string); a field that is set
is sent with its value. -/
def optionalStringPointer (d : ResourceData) (key : String) : Option String :=
  match d.GetOk key with
  | (some (Attr.str s), true) => some s
  | _ => none

/-- Modelled from the spec: `contactEmailListForAPI` is not among the source files. Spec 4.1:
an optional field absent locally is not sent (a nil pointer); a set of emails that is present
becomes the ordered remote list of contact emails. The spec says nothing about the third
argument, which the handlers always pass as `true`. -/
def contactEmailListForAPI (d : ResourceData) (field : String) (_newResource : Bool) :
    Option (Slice ContactEmail) :=
  match d.GetOk field with
  | (some (Attr.set l), true) => some (some ((setList l).map ContactEmail.mk))
  | _ => none

/-- Modelled from the spec: `flattenToString` is not among the source files. Spec 4.1: an
optional field absent locally is not sent (nil), and the members of a set become an ordered
remote list; the argument is the member list of the local set. -/
def flattenToString (a : List String) : Slice String :=
  if a.isEmpty then none else some a

/-- Modelled from the spec: `contactEmailListForTerraform` is not among the source files.
Spec 4.3: on a successful Read every schema field is written back, and a write failure is
returned; the field is written with the addresses of the remote contact emails. -/
def contactEmailListForTerraform {σ : Type} (env : Env σ) (d : ResourceData) (field : String)
    (contactEmails : Slice ContactEmail) : Option GoError × ResourceData :=
  d.Set env field (GoValue.stringSlice (contactEmails.map (List.map ContactEmail.Email)))

/-! ## The handlers -/

/-- What a `diag.Diagnostics`-returning handler leaves behind. -/
structure Outcome (σ : Type) where
  diags : Diagnostics
  d : ResourceData
  remote : σ
  calls : List Call

/-- What the import handler leaves behind: the returned record list (`none` is nil), the
returned error, the remote state and the remote calls issued. -/
structure StateOutcome (σ : Type) where
  result : Option (List ResourceData)
  err : Option GoError
  remote : σ
  calls : List Call

/-- Runs the write statements of Read in order: each is
`if err := ...; err != nil (return diag.FromErr(err))`, so the first error stops the run. -/
def runSteps : List (ResourceData → Option GoError × ResourceData) → ResourceData →
    Option GoError × ResourceData
  | [], d => (none, d)
  | f :: fs, d =>
    match f d with
    | (some e, d1) => (some e, d1)
    | (none, d1) => runSteps fs d1

/-- The write statements of `resourceBillingGroupRead` (lines 155-193), in source order. -/
def readSteps {σ : Type} (env : Env σ) (bg : BillingGroup) :
    List (ResourceData → Option GoError × ResourceData) :=
  [ fun d => d.Set env "name" (GoValue.string bg.BillingGroupName),
    fun d => d.Set env "account_id" (GoValue.stringPtr bg.AccountId),
    fun d => d.Set env "card_id" (GoValue.stringPtr bg.CardId),
    fun d => d.Set env "vat_id" (GoValue.stringPtr bg.VatId),
    fun d => d.Set env "billing_currency" (GoValue.stringPtr bg.BillingCurrency),
    fun d => d.Set env "billing_extra_text" (GoValue.stringPtr bg.BillingExtraText),
    fun d => contactEmailListForTerraform env d "billing_emails" bg.BillingEmails,
    fun d => d.Set env "company" (GoValue.stringPtr bg.Company),
    fun d => d.Set env "address_lines" (GoValue.stringSlice bg.AddressLines),
    fun d => d.Set env "country_code" (GoValue.stringPtr bg.CountryCode),
    fun d => d.Set env "city" (GoValue.stringPtr bg.City),
    fun d => d.Set env "zip_code" (GoValue.stringPtr bg.ZipCode),
    fun d => d.Set env "state" (GoValue.stringPtr bg.State) ]

/-- The attribute writes of Read as (name, value) pairs, in source order; the value written
for `billing_emails` is the one `contactEmailListForTerraform` passes to `d.Set`. -/
def readWrites (bg : BillingGroup) : List (String × GoValue) :=
  [ ("name", GoValue.string bg.BillingGroupName),
    ("account_id", GoValue.stringPtr bg.AccountId),
    ("card_id", GoValue.stringPtr bg.CardId),
    ("vat_id", GoValue.stringPtr bg.VatId),
    ("billing_currency", GoValue.stringPtr bg.BillingCurrency),
    ("billing_extra_text", GoValue.stringPtr bg.BillingExtraText),
    ("billing_emails", GoValue.stringSlice (bg.BillingEmails.map (List.map ContactEmail.Email))),
    ("company", GoValue.stringPtr bg.Company),
    ("address_lines", GoValue.stringSlice bg.AddressLines),
    ("country_code", GoValue.stringPtr bg.CountryCode),
    ("city", GoValue.stringPtr bg.City),
    ("zip_code", GoValue.stringPtr bg.ZipCode),
    ("state", GoValue.stringPtr bg.State) ]

/-- The function `resourceBillingGroupRead` (lines 147-196). -/
def resourceBillingGroupRead {σ : Type} (env : Env σ) (d : ResourceData) (s : σ) : Outcome σ :=
  match env.BillingGroupGet d.Id s with
  | (Except.error err, s1) =>
    let r := resourceReadHandleNotFound (some err) d
    { diags := diag.FromErr r.1, d := r.2, remote := s1, calls := [Call.bgGet d.Id] }
  | (Except.ok bg, s1) =>
    let r := runSteps (readSteps env bg) d
    { diags := diag.FromErr r.1, d := r.2, remote := s1, calls := [Call.bgGet d.Id] }

/-- The request built by `resourceBillingGroupCreate` (lines 111-114 and 122-136). -/
def createRequest (d : ResourceData) (cardID : Option String) : BillingGroupRequest :=
  let billingEmails : Slice ContactEmail :=
    match contactEmailListForAPI d "billing_emails" true with
    | some emails => emails
    | none => none
  { BillingGroupName := d.GetString "name",
    AccountId := optionalStringPointer d "account_id",
    CardId := cardID,
    VatId := optionalStringPointer d "vat_id",
    BillingCurrency := optionalStringPointer d "billing_currency",
    BillingExtraText := optionalStringPointer d "billing_extra_text",
    BillingEmails := billingEmails,
    Company := optionalStringPointer d "company",
    AddressLines := flattenToString (d.GetSetList "address_lines"),
    CountryCode := optionalStringPointer d "country_code",
    City := optionalStringPointer d "city",
    ZipCode := optionalStringPointer d "zip_code",
    State := optionalStringPointer d "state" }

/-- The function `resourceBillingGroupCreate` (lines 108-145). -/
def resourceBillingGroupCreate {σ : Type} (env : Env σ) (d : ResourceData) (s : σ) :
    Outcome σ :=
  match getLongCardID env (d.GetString "card_id") s with
  | (Except.error err, s1, cs) =>
    { diags := diag.Errorf ("Error getting long card id: " ++ err.text),
      d := d, remote := s1, calls := cs }
  | (Except.ok cardID, s1, cs) =>
    match env.BillingGroupCreate (createRequest d cardID) s1 with
    | (Except.error err, s2) =>
      { diags := diag.Errorf ("cannot create billing group: " ++ err.text),
        d := d, remote := s2, calls := cs ++ [Call.bgCreate (createRequest d cardID)] }
    | (Except.ok bg, s2) =>
      let r := resourceBillingGroupRead env (d.SetId bg.Id) s2
      { r with calls := cs ++ [Call.bgCreate (createRequest d cardID)] ++ r.calls }

/-- The request built by `resourceBillingGroupUpdate` (lines 201-204 and 213-227). -/
def updateRequest (d : ResourceData) (cardID : Option String) : BillingGroupRequest :=
  let billingEmails : Slice ContactEmail :=
    match contactEmailListForAPI d "billing_emails" true with
    | some emails => emails
    | none => none
  { BillingGroupName := d.GetString "name",
    AccountId := optionalStringPointer d "account_id",
    CardId := cardID,
    VatId := optionalStringPointer d "vat_id",
    BillingCurrency := optionalStringPointer d "billing_currency",
    BillingExtraText := optionalStringPointer d "billing_extra_text",
    BillingEmails := billingEmails,
    Company := optionalStringPointer d "company",
    AddressLines := flattenToString (d.GetSetList "address_lines"),
    CountryCode := optionalStringPointer d "country_code",
    City := optionalStringPointer d "city",
    ZipCode := optionalStringPointer d "zip_code",
    State := optionalStringPointer d "state" }

/-- The function `resourceBillingGroupUpdate` (lines 198-236). -/
def resourceBillingGroupUpdate {σ : Type} (env : Env σ) (d : ResourceData) (s : σ) :
    Outcome σ :=
  match getLongCardID env (d.GetString "card_id") s with
  | (Except.error err, s1, cs) =>
    { diags := diag.Errorf ("Error getting long card id: " ++ err.text),
      d := d, remote := s1, calls := cs }
  | (Except.ok cardID, s1, cs) =>
    match env.BillingGroupUpdate d.Id (updateRequest d cardID) s1 with
    | (Except.error err, s2) =>
      { diags := diag.Errorf ("cannot update billing group: " ++ err.text),
        d := d, remote := s2, calls := cs ++ [Call.bgUpdate d.Id (updateRequest d cardID)] }
    | (Except.ok bg, s2) =>
      let r := resourceBillingGroupRead env (d.SetId bg.Id) s2
      { r with calls := cs ++ [Call.bgUpdate d.Id (updateRequest d cardID)] ++ r.calls }

/-- The function `resourceBillingGroupDelete` (lines 238-247). -/
def resourceBillingGroupDelete {σ : Type} (env : Env σ) (d : ResourceData) (s : σ) :
    Outcome σ :=
  match env.BillingGroupDelete d.Id s with
  | (err, s1) =>
    if err ≠ none ∧ !IsNotFound err then
      { diags := diag.Errorf ("cannot delete a billing group: " ++
          (match err with | some e => e.text | none => "%!s(<nil>)")),
        d := d, remote := s1, calls := [Call.bgDelete d.Id] }
    else
      { diags := [], d := d, remote := s1, calls := [Call.bgDelete d.Id] }

/-- The function `resourceBillingGroupState` (lines 249-256). -/
def resourceBillingGroupState {σ : Type} (env : Env σ) (d : ResourceData) (s : σ) :
    StateOutcome σ :=
  let di := resourceBillingGroupRead env d s
  if Diagnostics.HasError di.diags then
    { result := none,
      err := some { text := "cannot get a billing group: " ++ env.sprintDiags di.diags,
                    notFound := false },
      remote := di.remote, calls := di.calls }
  else
    { result := some [di.d], err := none, remote := di.remote, calls := di.calls }

/-! ## Sample remotes and records -/

/-- An environment over a one-point remote state whose calls return fixed results and whose
`d.Set` refuses exactly the attributes listed in `refused`. -/
def constEnv (card : Except GoError String) (create get update : Except GoError BillingGroup)
    (del : Option GoError) (refused : List String) : Env Unit :=
  { CardsGet := fun _ s => (card, s),
    BillingGroupCreate := fun _ s => (create, s),
    BillingGroupGet := fun _ s => (get, s),
    BillingGroupUpdate := fun _ _ s => (update, s),
    BillingGroupDelete := fun _ s => (del, s),
    setErr := fun key _ =>
      if key ∈ refused then some { text := "cannot set " ++ key, notFound := false } else none,
    sprintDiags := fun ds => String.intercalate "; " (ds.map Diagnostic.summary) }

/-- A remote billing group named acme in the US. -/
def acme : BillingGroup :=
  { BillingGroupName := "acme", AccountId := none, CardId := none, VatId := none,
    BillingCurrency := none, BillingExtraText := none, BillingEmails := none, Company := none,
    AddressLines := none, CountryCode := some "US", City := none, ZipCode := none,
    State := none, Id := "bg-1" }

/-- A server-side failure. -/
def boom : GoError := { text := "boom", notFound := false }

/-- The not-found answer of the API. -/
def gone : GoError := { text := "not found", notFound := true }

/-- A remote on which every call succeeds and answers with `acme`. -/
def envOk : Env Unit :=
  constEnv (Except.ok "card-long") (Except.ok acme) (Except.ok acme) (Except.ok acme) none []

/-- A remote that no longer has the billing group. -/
def envGone : Env Unit :=
  constEnv (Except.ok "card-long") (Except.ok acme) (Except.error gone) (Except.error gone)
    (some gone) []

/-- A remote whose get and delete calls fail with a server error. -/
def envGetFails : Env Unit :=
  constEnv (Except.ok "card-long") (Except.ok acme) (Except.error boom) (Except.ok acme)
    (some boom) []

/-- A remote whose create and update calls fail with a server error. -/
def envCreateFails : Env Unit :=
  constEnv (Except.ok "card-long") (Except.error boom) (Except.ok acme) (Except.error boom)
    none []

/-- A remote that answers, with a record whose `account_id` refuses writes. -/
def envWriteFails : Env Unit :=
  constEnv (Except.ok "card-long") (Except.ok acme) (Except.ok acme) (Except.ok acme) none
    ["account_id"]

/-- A configured record that has no identifier yet: only `name` is set. -/
def newRecord : ResourceData :=
  { id := "", attrs := fun k => if k = "name" then some (Attr.str "acme") else none }

/-- A record already bound to the remote identifier `bg-1`. -/
def boundRecord : ResourceData :=
  { id := "bg-1", attrs := fun k => if k = "name" then some (Attr.str "old") else none }

/-- A remote whose card lookup fails with a server error. -/
def envCardFails : Env Unit :=
  constEnv (Except.error boom) (Except.ok acme) (Except.ok acme) (Except.ok acme) none []

/-- A record bound to `bg-1` that names a payment card. -/
def cardRecord : ResourceData :=
  { id := "bg-1",
    attrs := fun k =>
      if k = "name" then some (Attr.str "acme")
      else if k = "card_id" then some (Attr.str "card-1")
      else none }

/-- A record whose two set attributes hold the given members, in the given order. -/
def setRecord (emails lines : List String) : ResourceData :=
  { id := "bg-1",
    attrs := fun k =>
      if k = "name" then some (Attr.str "acme")
      else if k = "billing_emails" then some (Attr.set emails)
      else if k = "address_lines" then some (Attr.set lines)
      else none }

/-! ## Kafka topic helpers that are not among the source files -/

/-- Modelled from the spec: the separator of composite identifiers is not among the source
files. Spec 3 and 6: the components are joined with a fixed separator; the spec does not name
the character, and the slash is taken here. -/
def resourceIDSeparator : Char := '/'

/-- Modelled from the spec: the function that forms a three-component identifier is not among
the source files. Spec 3: the identifier of a topic is formed by joining the project, the
service name and the topic name with the fixed separator. -/
def joinResourceID3 (project serviceName topicName : String) : String :=
  String.mk (project.data ++ resourceIDSeparator ::
    (serviceName.data ++ resourceIDSeparator :: topicName.data))

/-- Modelled from the spec: `splitResourceID3` is not among the source files (only its call at
line 411 of the topic test is). Spec 3 and 6: a composite identifier splits back into its
components at the separator. The first component ends at the first separator, the second at
the next one, and the third is the rest. -/
def splitResourceID3 (resourceID : String) : String × String × String :=
  let cs := resourceID.data
  let project := cs.takeWhile (fun c => c != resourceIDSeparator)
  let rest := (cs.dropWhile (fun c => c != resourceIDSeparator)).drop 1
  let serviceName := rest.takeWhile (fun c => c != resourceIDSeparator)
  let topicName := (rest.dropWhile (fun c => c != resourceIDSeparator)).drop 1
  (String.mk project, String.mk serviceName, String.mk topicName)

/-! ## Lemmas on the record and on the write sequence -/

theorem HasError_FromErr (err : Option GoError) :
    Diagnostics.HasError (diag.FromErr err) = err.isSome := by
  cases err <;> rfl

theorem HasError_Errorf (msg : String) : Diagnostics.HasError (diag.Errorf msg) = true := rfl

theorem Set_cases {σ : Type} (env : Env σ) (d : ResourceData) (key : String) (v : GoValue) :
    d.Set env key v = (none, d.write key v) ∨ ∃ e, d.Set env key v = (some e, d) := by
  unfold ResourceData.Set
  cases h : env.setErr key v with
  | none => exact Or.inl rfl
  | some e => exact Or.inr ⟨e, rfl⟩

theorem toAttr_stringPtr (p : Option String) :
    (GoValue.stringPtr p).toAttr = p.map Attr.str := by
  cases p <;> rfl

theorem toAttr_stringSlice (l : Slice String) :
    (GoValue.stringSlice l).toAttr = some (Attr.set (l.getD [])) := rfl

theorem readSteps_eq {σ : Type} (env : Env σ) (bg : BillingGroup) :
    readSteps env bg = (readWrites bg).map (fun w d => d.Set env w.1 w.2) := rfl

/-- A run of `d.Set` statements that ends without error has performed every write. -/
theorem runSteps_ok {σ : Type} (env : Env σ) (ws : List (String × GoValue)) (d : ResourceData)
    (h : (runSteps (ws.map (fun w d => d.Set env w.1 w.2)) d).1 = none) :
    (runSteps (ws.map (fun w d => d.Set env w.1 w.2)) d).2
      = ws.foldl (fun d w => d.write w.1 w.2) d := by
  induction ws generalizing d with
  | nil => rfl
  | cons w ws ih =>
    simp only [List.map_cons, runSteps, List.foldl_cons] at h ⊢
    rcases Set_cases env d w.1 w.2 with hs | ⟨e, hs⟩
    · rw [hs] at h ⊢
      exact ih _ h
    · rw [hs] at h
      simp at h

/-- The card lookup issues card calls only. -/
theorem getLongCardID_calls {σ : Type} (env : Env σ) (cardID : String) (s : σ) :
    ∀ x ∈ (getLongCardID env cardID s).2.2, x = Call.cardGet cardID := by
  unfold getLongCardID
  split
  · simp
  · split <;> simp

/-- Read issues exactly one call, the get of the record's identifier. -/
theorem resourceBillingGroupRead_calls {σ : Type} (env : Env σ) (d : ResourceData) (s : σ) :
    (resourceBillingGroupRead env d s).calls = [Call.bgGet d.Id] := by
  unfold resourceBillingGroupRead
  split <;> rfl

/-- The requests among the calls of Create: none when the card lookup fails, else the one
request built from the record and the resolved card. -/
theorem resourceBillingGroupCreate_requests {σ : Type} (env : Env σ) (d : ResourceData)
    (s : σ) :
    (resourceBillingGroupCreate env d s).calls.filterMap Call.request
      = match (getLongCardID env (d.GetString "card_id") s).1 with
        | Except.error _ => []
        | Except.ok c => [createRequest d c] := by
  have hcs := getLongCardID_calls env (d.GetString "card_id") s
  have hnone : (getLongCardID env (d.GetString "card_id") s).2.2.filterMap Call.request = [] := by
    rw [List.filterMap_eq_nil_iff]
    intro x hx
    rw [hcs x hx]
    rfl
  unfold resourceBillingGroupCreate
  rcases h : getLongCardID env (d.GetString "card_id") s with ⟨r, s1, cs⟩
  rw [h] at hnone
  cases r with
  | error e => simpa using hnone
  | ok c =>
    simp only
    rcases hc : env.BillingGroupCreate (createRequest d c) s1 with ⟨r2, s2⟩
    cases r2 with
    | error e => simp [List.filterMap_append, hnone, Call.request]
    | ok bg =>
      simp [List.filterMap_append, hnone, Call.request, resourceBillingGroupRead_calls]

/-- The requests among the calls of Update: none when the card lookup fails, else the one
request built from the record and the resolved card. -/
theorem resourceBillingGroupUpdate_requests {σ : Type} (env : Env σ) (d : ResourceData)
    (s : σ) :
    (resourceBillingGroupUpdate env d s).calls.filterMap Call.request
      = match (getLongCardID env (d.GetString "card_id") s).1 with
        | Except.error _ => []
        | Except.ok c => [updateRequest d c] := by
  have hcs := getLongCardID_calls env (d.GetString "card_id") s
  have hnone : (getLongCardID env (d.GetString "card_id") s).2.2.filterMap Call.request = [] := by
    rw [List.filterMap_eq_nil_iff]
    intro x hx
    rw [hcs x hx]
    rfl
  unfold resourceBillingGroupUpdate
  rcases h : getLongCardID env (d.GetString "card_id") s with ⟨r, s1, cs⟩
  rw [h] at hnone
  cases r with
  | error e => simpa using hnone
  | ok c =>
    simp only
    rcases hc : env.BillingGroupUpdate d.Id (updateRequest d c) s1 with ⟨r2, s2⟩
    cases r2 with
    | error e => simp [List.filterMap_append, hnone, Call.request]
    | ok bg =>
      simp [List.filterMap_append, hnone, Call.request, resourceBillingGroupRead_calls]

theorem optionalStringPointer_unset (d : ResourceData) (key : String)
    (h : (d.GetOk key).2 = false) : optionalStringPointer d key = none := by
  unfold optionalStringPointer
  rcases hh : d.GetOk key with ⟨v, b⟩
  rw [hh] at h
  simp only at h
  subst h
  split
  · rename_i heq
    cases heq
  · rfl

theorem contactEmailListForAPI_unset (d : ResourceData) (key : String) (newResource : Bool)
    (h : (d.GetOk key).2 = false) : contactEmailListForAPI d key newResource = none := by
  unfold contactEmailListForAPI
  rcases hh : d.GetOk key with ⟨v, b⟩
  rw [hh] at h
  simp only at h
  subst h
  split
  · rename_i heq
    cases heq
  · rfl

theorem GetString_unset (d : ResourceData) (key : String) (h : (d.GetOk key).2 = false) :
    d.GetString key = "" := by
  unfold ResourceData.GetOk at h
  unfold ResourceData.GetString
  cases hv : d.attrs key with
  | none => rfl
  | some v =>
    cases v with
    | str x => simpa [hv] using h
    | set l => rfl

theorem GetSetList_unset (d : ResourceData) (key : String) (h : (d.GetOk key).2 = false) :
    d.GetSetList key = [] := by
  unfold ResourceData.GetOk at h
  unfold ResourceData.GetSetList
  cases hv : d.attrs key with
  | none => rfl
  | some v =>
    cases v with
    | str x => rfl
    | set l => simpa [hv] using h

/-- A create call found among the calls of Create carries the request built from the record
and the card the lookup resolved. -/
theorem resourceBillingGroupCreate_request_mem {σ : Type} (env : Env σ) (d : ResourceData)
    (s : σ) (req : BillingGroupRequest)
    (h : Call.bgCreate req ∈ (resourceBillingGroupCreate env d s).calls) :
    ∃ c, (getLongCardID env (d.GetString "card_id") s).1 = Except.ok c ∧
      req = createRequest d c := by
  have hmem : req ∈ (resourceBillingGroupCreate env d s).calls.filterMap Call.request :=
    List.mem_filterMap.2 ⟨_, h, rfl⟩
  rw [resourceBillingGroupCreate_requests] at hmem
  cases hr : (getLongCardID env (d.GetString "card_id") s).1 with
  | error e => simp [hr] at hmem
  | ok c =>
    rw [hr] at hmem
    exact ⟨c, rfl, by simpa using hmem⟩

/-- An update call found among the calls of Update carries the request built from the record
and the card the lookup resolved. -/
theorem resourceBillingGroupUpdate_request_mem {σ : Type} (env : Env σ) (d : ResourceData)
    (s : σ) (id : String) (req : BillingGroupRequest)
    (h : Call.bgUpdate id req ∈ (resourceBillingGroupUpdate env d s).calls) :
    ∃ c, (getLongCardID env (d.GetString "card_id") s).1 = Except.ok c ∧
      req = updateRequest d c := by
  have hmem : req ∈ (resourceBillingGroupUpdate env d s).calls.filterMap Call.request :=
    List.mem_filterMap.2 ⟨_, h, rfl⟩
  rw [resourceBillingGroupUpdate_requests] at hmem
  cases hr : (getLongCardID env (d.GetString "card_id") s).1 with
  | error e => simp [hr] at hmem
  | ok c =>
    rw [hr] at hmem
    exact ⟨c, rfl, by simpa using hmem⟩

/-! ## The claims -/

/-- C1. `resourceBillingGroupDelete` returns an error diagnostic if and only if the remote
delete call returns an error that is not a not-found error: a nil result or a not-found
result yields no diagnostics at all, every other error yields the fatal diagnostic. -/
theorem resourceBillingGroupDelete_error_iff {σ : Type} (env : Env σ) (d : ResourceData)
    (s : σ) :
    (Diagnostics.HasError (resourceBillingGroupDelete env d s).diags = true ↔
      ∃ e, (env.BillingGroupDelete d.Id s).1 = some e ∧ IsNotFound (some e) = false) ∧
    ((resourceBillingGroupDelete env d s).diags = [] ↔
      ((env.BillingGroupDelete d.Id s).1 = none ∨
        IsNotFound (env.BillingGroupDelete d.Id s).1 = true)) ∧
    (∀ e, (env.BillingGroupDelete d.Id s).1 = some e → IsNotFound (some e) = false →
      (resourceBillingGroupDelete env d s).diags
        = diag.Errorf ("cannot delete a billing group: " ++ e.text)) := by
  unfold resourceBillingGroupDelete
  rcases h : env.BillingGroupDelete d.Id s with ⟨err, s1⟩
  cases err with
  | none => simp [IsNotFound, Diagnostics.HasError]
  | some e =>
    cases hn : e.notFound <;>
      simp [IsNotFound, hn, Diagnostics.HasError, diag.Errorf]

/-- Witness for C1: deleting a group that is already gone, and one the server fails on. -/
theorem resourceBillingGroupDelete_error_iff_witness :
    (resourceBillingGroupDelete envGone boundRecord ()).diags = [] ∧
    (resourceBillingGroupDelete envGetFails boundRecord ()).diags
      = diag.Errorf ("cannot delete a billing group: " ++ boom.text) :=
  ⟨(resourceBillingGroupDelete_error_iff envGone boundRecord ()).2.1.2 (Or.inr rfl),
   (resourceBillingGroupDelete_error_iff envGetFails boundRecord ()).2.2 boom rfl rfl⟩

/-- C2 as stated fails: for an identifier the remote reports as not-found, the import handler
returns a nil error and a one-element list holding the record with an empty identifier. -/
theorem resourceBillingGroupState_not_found_counterexample :
    envGone.BillingGroupGet boundRecord.Id () = (Except.error gone, ()) ∧
    IsNotFound (some gone) = true ∧
    (resourceBillingGroupState envGone boundRecord ()).err = none ∧
    (resourceBillingGroupState envGone boundRecord ()).result = some [boundRecord.SetId ""] ∧
    ¬ ((resourceBillingGroupState envGone boundRecord ()).err ≠ none ∧
        (resourceBillingGroupState envGone boundRecord ()).result = none) :=
  ⟨rfl, rfl, rfl, rfl, fun h => h.1 rfl⟩

/-- C2, amended. When the remote get call reports not-found, `resourceBillingGroupState` does
not fail: Read clears the identifier without an error diagnostic, so State returns a nil
error and the list holding the one record it was given, with an empty identifier and its
attributes untouched. -/
theorem resourceBillingGroupState_not_found {σ : Type} (env : Env σ) (d : ResourceData)
    (s s1 : σ) (e : GoError) (hget : env.BillingGroupGet d.Id s = (Except.error e, s1))
    (hnf : IsNotFound (some e) = true) :
    (resourceBillingGroupState env d s).err = none ∧
    (resourceBillingGroupState env d s).result = some [d.SetId ""] ∧
    (d.SetId "").id = "" ∧ (d.SetId "").attrs = d.attrs := by
  simp [resourceBillingGroupState, resourceBillingGroupRead, hget, resourceReadHandleNotFound,
    hnf, diag.FromErr, Diagnostics.HasError, ResourceData.SetId]

/-- Witness for the amended C2: importing `bg-1` from a remote that no longer has it. -/
theorem resourceBillingGroupState_not_found_witness :
    (resourceBillingGroupState envGone boundRecord ()).err = none ∧
    (resourceBillingGroupState envGone boundRecord ()).result = some [boundRecord.SetId ""] ∧
    (boundRecord.SetId "").id = "" ∧ (boundRecord.SetId "").attrs = boundRecord.attrs :=
  resourceBillingGroupState_not_found envGone boundRecord () () gone rfl rfl

/-- C3. When the remote get call fails, `resourceBillingGroupRead` treats not-found as drift:
it clears the identifier, writes no attribute and returns no diagnostic; any other error
comes back as one error diagnostic carrying that error, and the record is left as it was. -/
theorem resourceBillingGroupRead_get_error {σ : Type} (env : Env σ) (d : ResourceData)
    (s s1 : σ) (e : GoError) (hget : env.BillingGroupGet d.Id s = (Except.error e, s1)) :
    (IsNotFound (some e) = true →
      (resourceBillingGroupRead env d s).diags = [] ∧
      (resourceBillingGroupRead env d s).d.id = "" ∧
      (resourceBillingGroupRead env d s).d.attrs = d.attrs) ∧
    (IsNotFound (some e) = false →
      (resourceBillingGroupRead env d s).diags
        = [{ severity := Severity.Error, summary := e.text }] ∧
      Diagnostics.HasError (resourceBillingGroupRead env d s).diags = true ∧
      (resourceBillingGroupRead env d s).d = d) := by
  constructor <;> intro hnf <;>
    simp [resourceBillingGroupRead, hget, resourceReadHandleNotFound, hnf, diag.FromErr,
      Diagnostics.HasError, ResourceData.SetId]

/-- Witness for C3: a Read against a remote that lost the group, and one that fails. -/
theorem resourceBillingGroupRead_get_error_witness :
    ((resourceBillingGroupRead envGone boundRecord ()).diags = [] ∧
      (resourceBillingGroupRead envGone boundRecord ()).d.id = "" ∧
      (resourceBillingGroupRead envGone boundRecord ()).d.attrs = boundRecord.attrs) ∧
    ((resourceBillingGroupRead envGetFails boundRecord ()).diags
        = [{ severity := Severity.Error, summary := boom.text }] ∧
      Diagnostics.HasError (resourceBillingGroupRead envGetFails boundRecord ()).diags = true ∧
      (resourceBillingGroupRead envGetFails boundRecord ()).d = boundRecord) :=
  ⟨(resourceBillingGroupRead_get_error envGone boundRecord () () gone rfl).1 rfl,
   (resourceBillingGroupRead_get_error envGetFails boundRecord () () boom rfl).2 rfl⟩

/-- C4. After a successful `resourceBillingGroupRead` every attribute the schema declares
holds the value of the corresponding field of the fetched remote object, no attribute outside
the schema has been written, and the identifier is unchanged. -/
theorem resourceBillingGroupRead_mirrors_remote {σ : Type} (env : Env σ) (d : ResourceData)
    (s s1 : σ) (bg : BillingGroup) (hget : env.BillingGroupGet d.Id s = (Except.ok bg, s1))
    (hok : Diagnostics.HasError (resourceBillingGroupRead env d s).diags = false) :
    (resourceBillingGroupRead env d s).d.attrs "name" = some (Attr.str bg.BillingGroupName) ∧
    (resourceBillingGroupRead env d s).d.attrs "card_id" = bg.CardId.map Attr.str ∧
    (resourceBillingGroupRead env d s).d.attrs "vat_id" = bg.VatId.map Attr.str ∧
    (resourceBillingGroupRead env d s).d.attrs "account_id" = bg.AccountId.map Attr.str ∧
    (resourceBillingGroupRead env d s).d.attrs "billing_currency"
      = bg.BillingCurrency.map Attr.str ∧
    (resourceBillingGroupRead env d s).d.attrs "billing_extra_text"
      = bg.BillingExtraText.map Attr.str ∧
    (resourceBillingGroupRead env d s).d.attrs "billing_emails"
      = some (Attr.set ((bg.BillingEmails.getD []).map ContactEmail.Email)) ∧
    (resourceBillingGroupRead env d s).d.attrs "company" = bg.Company.map Attr.str ∧
    (resourceBillingGroupRead env d s).d.attrs "address_lines"
      = some (Attr.set (bg.AddressLines.getD [])) ∧
    (resourceBillingGroupRead env d s).d.attrs "country_code" = bg.CountryCode.map Attr.str ∧
    (resourceBillingGroupRead env d s).d.attrs "city" = bg.City.map Attr.str ∧
    (resourceBillingGroupRead env d s).d.attrs "zip_code" = bg.ZipCode.map Attr.str ∧
    (resourceBillingGroupRead env d s).d.attrs "state" = bg.State.map Attr.str ∧
    (∀ k, k ∉ schemaKeys → (resourceBillingGroupRead env d s).d.attrs k = d.attrs k) ∧
    (resourceBillingGroupRead env d s).d.id = d.id := by
  have hrun : (runSteps (readSteps env bg) d).1 = none := by
    simp only [resourceBillingGroupRead, hget, HasError_FromErr] at hok
    cases h : (runSteps (readSteps env bg) d).1 with
    | none => rfl
    | some e => simp [h] at hok
  have hd : (resourceBillingGroupRead env d s).d
      = (readWrites bg).foldl (fun d w => d.write w.1 w.2) d := by
    simp only [resourceBillingGroupRead, hget]
    rw [readSteps_eq] at hrun ⊢
    exact runSteps_ok env _ d hrun
  rw [hd]
  refine ⟨?_, ?_, ?_, ?_, ?_, ?_, ?_, ?_, ?_, ?_, ?_, ?_, ?_, ?_, ?_⟩
  · simp [readWrites, ResourceData.write, Function.update, GoValue.toAttr]
  all_goals first
    | (intro k hk
       simp only [schemaKeys, aivenBillingGroupSchema, List.map_cons, List.map_nil,
         List.mem_cons, List.mem_nil_iff, or_false, not_or] at hk
       simp [readWrites, ResourceData.write, Function.update, hk])
    | (simp [readWrites, ResourceData.write, Function.update, toAttr_stringPtr,
        toAttr_stringSlice]
       done)
    | (simp [readWrites, ResourceData.write, Function.update, toAttr_stringSlice]
       cases bg.BillingEmails <;> rfl)

/-- Witness for C4: reading `bg-1` from a remote that answers with `acme`. -/
theorem resourceBillingGroupRead_mirrors_remote_witness :
    (resourceBillingGroupRead envOk boundRecord ()).d.attrs "name" = some (Attr.str "acme") ∧
    (resourceBillingGroupRead envOk boundRecord ()).d.attrs "country_code"
      = some (Attr.str "US") ∧
    (resourceBillingGroupRead envOk boundRecord ()).d.id = "bg-1" :=
  have h := resourceBillingGroupRead_mirrors_remote envOk boundRecord () () acme rfl rfl
  ⟨h.1, h.2.2.2.2.2.2.2.2.2.1, h.2.2.2.2.2.2.2.2.2.2.2.2.2.2⟩

/-- C5 as stated fails. Create stores the remote identifier before the chained Read, so when
that Read fails the handler returns an error with the identifier already changed; and when a
field write is refused, Read and Update return an error with the earlier fields written. -/
theorem handlers_partial_success_counterexample :
    (Diagnostics.HasError (resourceBillingGroupCreate envGetFails newRecord ()).diags = true ∧
      newRecord.id = "" ∧
      (resourceBillingGroupCreate envGetFails newRecord ()).d.id = "bg-1" ∧
      (resourceBillingGroupCreate envGetFails newRecord ()).d ≠ newRecord) ∧
    (Diagnostics.HasError (resourceBillingGroupRead envWriteFails boundRecord ()).diags = true ∧
      boundRecord.attrs "name" = some (Attr.str "old") ∧
      (resourceBillingGroupRead envWriteFails boundRecord ()).d.attrs "name"
        = some (Attr.str "acme") ∧
      (resourceBillingGroupRead envWriteFails boundRecord ()).d ≠ boundRecord) ∧
    (Diagnostics.HasError (resourceBillingGroupUpdate envWriteFails boundRecord ()).diags = true ∧
      (resourceBillingGroupUpdate envWriteFails boundRecord ()).d.attrs "name"
        = some (Attr.str "acme") ∧
      (resourceBillingGroupUpdate envWriteFails boundRecord ()).d ≠ boundRecord) := by
  refine ⟨⟨rfl, rfl, rfl, ?_⟩, ⟨rfl, rfl, rfl, ?_⟩, ⟨rfl, rfl, ?_⟩⟩
  · intro h
    have h1 := congrArg ResourceData.id h
    revert h1
    decide
  · intro h
    have h1 := congrFun (congrArg ResourceData.attrs h) "name"
    revert h1
    decide
  · intro h
    have h1 := congrFun (congrArg ResourceData.attrs h) "name"
    revert h1
    decide

/-- C5, amended. A handler that fails before it touches the record leaves the record as it
was: Create and Update when the card lookup or the remote create / update call fails, Read
when the remote get call fails with an error other than not-found. -/
theorem handlers_early_error_leaves_record {σ : Type} (env : Env σ) (d : ResourceData) (s : σ) :
    (∀ e s1 cs, getLongCardID env (d.GetString "card_id") s = (Except.error e, s1, cs) →
      (Diagnostics.HasError (resourceBillingGroupCreate env d s).diags = true ∧
        (resourceBillingGroupCreate env d s).d = d) ∧
      (Diagnostics.HasError (resourceBillingGroupUpdate env d s).diags = true ∧
        (resourceBillingGroupUpdate env d s).d = d)) ∧
    (∀ c s1 cs e s2, getLongCardID env (d.GetString "card_id") s = (Except.ok c, s1, cs) →
      env.BillingGroupCreate (createRequest d c) s1 = (Except.error e, s2) →
      Diagnostics.HasError (resourceBillingGroupCreate env d s).diags = true ∧
        (resourceBillingGroupCreate env d s).d = d) ∧
    (∀ c s1 cs e s2, getLongCardID env (d.GetString "card_id") s = (Except.ok c, s1, cs) →
      env.BillingGroupUpdate d.Id (updateRequest d c) s1 = (Except.error e, s2) →
      Diagnostics.HasError (resourceBillingGroupUpdate env d s).diags = true ∧
        (resourceBillingGroupUpdate env d s).d = d) ∧
    (∀ e s1, env.BillingGroupGet d.Id s = (Except.error e, s1) → IsNotFound (some e) = false →
      Diagnostics.HasError (resourceBillingGroupRead env d s).diags = true ∧
        (resourceBillingGroupRead env d s).d = d) := by
  refine ⟨?_, ?_, ?_, ?_⟩
  · intro e s1 cs hcard
    simp [resourceBillingGroupCreate, resourceBillingGroupUpdate, hcard, HasError_Errorf]
  · intro c s1 cs e s2 hcard hcreate
    simp [resourceBillingGroupCreate, hcard, hcreate, HasError_Errorf]
  · intro c s1 cs e s2 hcard hupdate
    simp [resourceBillingGroupUpdate, hcard, hupdate, HasError_Errorf]
  · intro e s1 hget hnf
    simp [resourceBillingGroupRead, hget, resourceReadHandleNotFound, hnf, HasError_FromErr]

/-- Witness for the amended C5: a failing remote create, a failing remote update and a
failing remote get each leave the record untouched. -/
theorem handlers_early_error_leaves_record_witness :
    (resourceBillingGroupCreate envCreateFails newRecord ()).d = newRecord ∧
    (resourceBillingGroupUpdate envCreateFails boundRecord ()).d = boundRecord ∧
    (resourceBillingGroupRead envGetFails boundRecord ()).d = boundRecord :=
  ⟨((handlers_early_error_leaves_record envCreateFails newRecord ()).2.1
      none () [] boom () rfl rfl).2,
   ((handlers_early_error_leaves_record envCreateFails boundRecord ()).2.2.1
      none () [] boom () rfl rfl).2,
   ((handlers_early_error_leaves_record envGetFails boundRecord ()).2.2.2 boom () rfl rfl).2⟩

/-- C6 as stated fails: the message of the diagnostic is not the remote error text itself but
that text behind the words "cannot create billing group: ". -/
theorem resourceBillingGroupCreate_message_counterexample :
    getLongCardID envCreateFails (newRecord.GetString "card_id") () = (Except.ok none, (), []) ∧
    envCreateFails.BillingGroupCreate (createRequest newRecord none) ()
      = (Except.error boom, ()) ∧
    (resourceBillingGroupCreate envCreateFails newRecord ()).diags
      = [{ severity := Severity.Error, summary := "cannot create billing group: boom" }] ∧
    (resourceBillingGroupCreate envCreateFails newRecord ()).diags
      ≠ [{ severity := Severity.Error, summary := boom.text }] := by
  refine ⟨rfl, rfl, by decide, by decide⟩

/-- C6, amended. When the remote create call fails, `resourceBillingGroupCreate` returns one
error diagnostic whose message is "cannot create billing group: " followed by the remote
error text verbatim, leaves the record (identifier included) as it was, and issues no call
after the create call, so the Read chain is not performed. -/
theorem resourceBillingGroupCreate_remote_error {σ : Type} (env : Env σ) (d : ResourceData)
    (s s1 s2 : σ) (c : Option String) (cs : List Call) (e : GoError)
    (hcard : getLongCardID env (d.GetString "card_id") s = (Except.ok c, s1, cs))
    (hcreate : env.BillingGroupCreate (createRequest d c) s1 = (Except.error e, s2)) :
    (resourceBillingGroupCreate env d s).diags
      = [{ severity := Severity.Error, summary := "cannot create billing group: " ++ e.text }] ∧
    (resourceBillingGroupCreate env d s).d = d ∧
    (resourceBillingGroupCreate env d s).remote = s2 ∧
    (resourceBillingGroupCreate env d s).calls = cs ++ [Call.bgCreate (createRequest d c)] ∧
    (∀ id, Call.bgGet id ∉ (resourceBillingGroupCreate env d s).calls) := by
  have hcs := getLongCardID_calls env (d.GetString "card_id") s
  rw [hcard] at hcs
  simp only [resourceBillingGroupCreate, hcard, hcreate, diag.Errorf, true_and]
  intro id hmem
  rcases List.mem_append.1 hmem with h | h
  · cases hcs _ h
  · simp at h

/-- Witness for the amended C6: creating `acme` on a remote whose create call fails. -/
theorem resourceBillingGroupCreate_remote_error_witness :
    (resourceBillingGroupCreate envCreateFails newRecord ()).diags
      = [{ severity := Severity.Error, summary := "cannot create billing group: " ++ boom.text }] ∧
    (resourceBillingGroupCreate envCreateFails newRecord ()).d = newRecord ∧
    (resourceBillingGroupCreate envCreateFails newRecord ()).remote = () ∧
    (resourceBillingGroupCreate envCreateFails newRecord ()).calls
      = [] ++ [Call.bgCreate (createRequest newRecord none)] ∧
    (∀ id, Call.bgGet id ∉ (resourceBillingGroupCreate envCreateFails newRecord ()).calls) :=
  resourceBillingGroupCreate_remote_error envCreateFails newRecord () () () none [] boom rfl rfl

/-- C7. When the card lookup and the remote create call both succeed,
`resourceBillingGroupCreate` stores the remote identifier and then returns what
`resourceBillingGroupRead` returns on the record with that identifier set: same diagnostics,
same final record, same remote state; Create touches no attribute itself. -/
theorem resourceBillingGroupCreate_chains_read {σ : Type} (env : Env σ) (d : ResourceData)
    (s s1 s2 : σ) (c : Option String) (cs : List Call) (bg : BillingGroup)
    (hcard : getLongCardID env (d.GetString "card_id") s = (Except.ok c, s1, cs))
    (hcreate : env.BillingGroupCreate (createRequest d c) s1 = (Except.ok bg, s2)) :
    (d.SetId bg.Id).id = bg.Id ∧ (d.SetId bg.Id).attrs = d.attrs ∧
    (resourceBillingGroupCreate env d s).diags
      = (resourceBillingGroupRead env (d.SetId bg.Id) s2).diags ∧
    (resourceBillingGroupCreate env d s).d = (resourceBillingGroupRead env (d.SetId bg.Id) s2).d ∧
    (resourceBillingGroupCreate env d s).remote
      = (resourceBillingGroupRead env (d.SetId bg.Id) s2).remote ∧
    (resourceBillingGroupCreate env d s).calls
      = cs ++ [Call.bgCreate (createRequest d c)]
          ++ (resourceBillingGroupRead env (d.SetId bg.Id) s2).calls := by
  simp [resourceBillingGroupCreate, hcard, hcreate, ResourceData.SetId]

/-- Witness for C7: creating `acme` on a remote where every call succeeds. -/
theorem resourceBillingGroupCreate_chains_read_witness :
    (newRecord.SetId acme.Id).id = acme.Id ∧ (newRecord.SetId acme.Id).attrs = newRecord.attrs ∧
    (resourceBillingGroupCreate envOk newRecord ()).diags
      = (resourceBillingGroupRead envOk (newRecord.SetId acme.Id) ()).diags ∧
    (resourceBillingGroupCreate envOk newRecord ()).d
      = (resourceBillingGroupRead envOk (newRecord.SetId acme.Id) ()).d ∧
    (resourceBillingGroupCreate envOk newRecord ()).remote
      = (resourceBillingGroupRead envOk (newRecord.SetId acme.Id) ()).remote ∧
    (resourceBillingGroupCreate envOk newRecord ()).calls
      = [] ++ [Call.bgCreate (createRequest newRecord none)]
          ++ (resourceBillingGroupRead envOk (newRecord.SetId acme.Id) ()).calls :=
  resourceBillingGroupCreate_chains_read envOk newRecord () () () none [] acme rfl rfl

/-- C8. Update builds its request as Create does: for every record and every resolved card
the two requests are equal, the requests the two handlers actually send from the same record
are the same, and after a successful remote update the handler stores the returned
identifier and returns what Read returns, just as Create does after a successful create. -/
theorem resourceBillingGroupUpdate_same_request {σ : Type} (env : Env σ) (d : ResourceData)
    (s : σ) :
    (∀ c, updateRequest d c = createRequest d c) ∧
    (resourceBillingGroupUpdate env d s).calls.filterMap Call.request
      = (resourceBillingGroupCreate env d s).calls.filterMap Call.request ∧
    (∀ c s1 cs, getLongCardID env (d.GetString "card_id") s = (Except.ok c, s1, cs) →
      (resourceBillingGroupUpdate env d s).calls.filterMap Call.request = [updateRequest d c] ∧
      Call.bgUpdate d.Id (updateRequest d c) ∈ (resourceBillingGroupUpdate env d s).calls ∧
      Call.bgCreate (createRequest d c) ∈ (resourceBillingGroupCreate env d s).calls) ∧
    (∀ c s1 cs bg s2, getLongCardID env (d.GetString "card_id") s = (Except.ok c, s1, cs) →
      env.BillingGroupUpdate d.Id (updateRequest d c) s1 = (Except.ok bg, s2) →
      (resourceBillingGroupUpdate env d s).diags
        = (resourceBillingGroupRead env (d.SetId bg.Id) s2).diags ∧
      (resourceBillingGroupUpdate env d s).d
        = (resourceBillingGroupRead env (d.SetId bg.Id) s2).d ∧
      (resourceBillingGroupUpdate env d s).remote
        = (resourceBillingGroupRead env (d.SetId bg.Id) s2).remote) ∧
    (∀ c s1 cs bg s2, getLongCardID env (d.GetString "card_id") s = (Except.ok c, s1, cs) →
      env.BillingGroupCreate (createRequest d c) s1 = (Except.ok bg, s2) →
      (resourceBillingGroupCreate env d s).diags
        = (resourceBillingGroupRead env (d.SetId bg.Id) s2).diags ∧
      (resourceBillingGroupCreate env d s).d
        = (resourceBillingGroupRead env (d.SetId bg.Id) s2).d ∧
      (resourceBillingGroupCreate env d s).remote
        = (resourceBillingGroupRead env (d.SetId bg.Id) s2).remote) := by
  refine ⟨fun c => rfl, ?_, ?_, ?_, ?_⟩
  · rw [resourceBillingGroupUpdate_requests, resourceBillingGroupCreate_requests]
    rfl
  · intro c s1 cs hcard
    refine ⟨?_, ?_, ?_⟩
    · rw [resourceBillingGroupUpdate_requests, hcard]
    · unfold resourceBillingGroupUpdate
      rw [hcard]
      simp only
      split <;> simp
    · unfold resourceBillingGroupCreate
      rw [hcard]
      simp only
      split <;> simp
  · intro c s1 cs bg s2 hcard hupdate
    simp [resourceBillingGroupUpdate, hcard, hupdate]
  · intro c s1 cs bg s2 hcard hcreate
    simp [resourceBillingGroupCreate, hcard, hcreate]

/-- Witness for C8: updating `bg-1` on a remote where every call succeeds. -/
theorem resourceBillingGroupUpdate_same_request_witness :
    ((resourceBillingGroupUpdate envOk boundRecord ()).calls.filterMap Call.request
        = [updateRequest boundRecord none] ∧
      Call.bgUpdate boundRecord.Id (updateRequest boundRecord none)
        ∈ (resourceBillingGroupUpdate envOk boundRecord ()).calls ∧
      Call.bgCreate (createRequest boundRecord none)
        ∈ (resourceBillingGroupCreate envOk boundRecord ()).calls) ∧
    ((resourceBillingGroupUpdate envOk boundRecord ()).diags
        = (resourceBillingGroupRead envOk (boundRecord.SetId acme.Id) ()).diags ∧
      (resourceBillingGroupUpdate envOk boundRecord ()).d
        = (resourceBillingGroupRead envOk (boundRecord.SetId acme.Id) ()).d ∧
      (resourceBillingGroupUpdate envOk boundRecord ()).remote
        = (resourceBillingGroupRead envOk (boundRecord.SetId acme.Id) ()).remote) :=
  ⟨(resourceBillingGroupUpdate_same_request envOk boundRecord ()).2.2.1 none () [] rfl,
   (resourceBillingGroupUpdate_same_request envOk boundRecord ()).2.2.2.1
      none () [] acme () rfl rfl⟩

/-- C9. `resourceBillingGroupState` fails the import exactly when Read reports an error: it
returns a non-nil error and a nil list if and only if the diagnostics of
`resourceBillingGroupRead` contain an error, and otherwise a nil error and the list holding
exactly the one record it was given, as Read left it. -/
theorem resourceBillingGroupState_error_iff {σ : Type} (env : Env σ) (d : ResourceData)
    (s : σ) :
    (((resourceBillingGroupState env d s).err ≠ none ∧
        (resourceBillingGroupState env d s).result = none) ↔
      Diagnostics.HasError (resourceBillingGroupRead env d s).diags = true) ∧
    (((resourceBillingGroupState env d s).err = none ∧
        (resourceBillingGroupState env d s).result
          = some [(resourceBillingGroupRead env d s).d]) ↔
      Diagnostics.HasError (resourceBillingGroupRead env d s).diags = false) := by
  unfold resourceBillingGroupState
  cases h : Diagnostics.HasError (resourceBillingGroupRead env d s).diags <;> simp [h]

/-- C10. An optional attribute that is unset in the local record is sent as nil: in every
request that Create or Update passes to the remote API, the field of each Optional schema
attribute whose local value is unset (absent, or the zero value) is nil, not an empty string
and not an empty non-nil list. -/
theorem unset_optional_attribute_is_nil {σ : Type} (env : Env σ) (d : ResourceData) (s : σ)
    (req : BillingGroupRequest)
    (hreq : Call.bgCreate req ∈ (resourceBillingGroupCreate env d s).calls ∨
      ∃ id, Call.bgUpdate id req ∈ (resourceBillingGroupUpdate env d s).calls) :
    optionalKeys = ["card_id", "vat_id", "account_id", "billing_currency", "billing_extra_text",
      "billing_emails", "company", "address_lines", "country_code", "city", "zip_code",
      "state"] ∧
    ((d.GetOk "account_id").2 = false → req.AccountId = none) ∧
    ((d.GetOk "card_id").2 = false → req.CardId = none) ∧
    ((d.GetOk "vat_id").2 = false → req.VatId = none) ∧
    ((d.GetOk "billing_currency").2 = false → req.BillingCurrency = none) ∧
    ((d.GetOk "billing_extra_text").2 = false → req.BillingExtraText = none) ∧
    ((d.GetOk "billing_emails").2 = false → req.BillingEmails = none) ∧
    ((d.GetOk "company").2 = false → req.Company = none) ∧
    ((d.GetOk "address_lines").2 = false → req.AddressLines = none) ∧
    ((d.GetOk "country_code").2 = false → req.CountryCode = none) ∧
    ((d.GetOk "city").2 = false → req.City = none) ∧
    ((d.GetOk "zip_code").2 = false → req.ZipCode = none) ∧
    ((d.GetOk "state").2 = false → req.State = none) := by
  have hreq2 : ∃ c, (getLongCardID env (d.GetString "card_id") s).1 = Except.ok c ∧
      req = createRequest d c := by
    rcases hreq with h | ⟨id, h⟩
    · exact resourceBillingGroupCreate_request_mem env d s req h
    · exact resourceBillingGroupUpdate_request_mem env d s id req h
  obtain ⟨c, hc, rfl⟩ := hreq2
  refine ⟨rfl, ?_, ?_, ?_, ?_, ?_, ?_, ?_, ?_, ?_, ?_, ?_, ?_⟩
  case refine_2 =>
    intro h
    rw [GetString_unset d _ h] at hc
    simp only [getLongCardID, if_true] at hc
    cases hc
    rfl
  case refine_6 =>
    intro h
    simp [createRequest, contactEmailListForAPI_unset d _ true h]
  case refine_8 =>
    intro h
    simp [createRequest, GetSetList_unset d _ h, flattenToString]
  all_goals
    intro h
    simp [createRequest, optionalStringPointer_unset d _ h]

/-- Witness for C10: the record that sets only `name` sends every optional field as nil. -/
theorem unset_optional_attribute_is_nil_witness :
    (createRequest newRecord none).AccountId = none ∧
    (createRequest newRecord none).CardId = none ∧
    (createRequest newRecord none).BillingEmails = none ∧
    (createRequest newRecord none).AddressLines = none :=
  have h := unset_optional_attribute_is_nil envOk newRecord () (createRequest newRecord none)
    (Or.inl (by decide))
  ⟨h.2.1 rfl, h.2.2.1 rfl, h.2.2.2.2.2.2.1 rfl, h.2.2.2.2.2.2.2.2.1 rfl⟩

/-! ## Further lemmas on the write sequence and on sets -/

theorem ResourceData.eq_of {d1 d2 : ResourceData} (hid : d1.id = d2.id)
    (hattrs : d1.attrs = d2.attrs) : d1 = d2 := by
  cases d1
  cases d2
  simp only at hid hattrs
  subst hid
  subst hattrs
  rfl

theorem Set_eq_of_none {σ : Type} (env : Env σ) (d : ResourceData) (key : String) (v : GoValue)
    (h : env.setErr key v = none) : d.Set env key v = (none, d.write key v) := by
  unfold ResourceData.Set
  rw [h]

theorem Set_eq_of_some {σ : Type} (env : Env σ) (d : ResourceData) (key : String) (v : GoValue)
    (e : GoError) (h : env.setErr key v = some e) : d.Set env key v = (some e, d) := by
  unfold ResourceData.Set
  rw [h]

/-- A run of `d.Set` statements ends without error exactly when no write is refused. -/
theorem runSteps_none_iff {σ : Type} (env : Env σ) (ws : List (String × GoValue))
    (d : ResourceData) :
    (runSteps (ws.map (fun w d => d.Set env w.1 w.2)) d).1 = none ↔
      ∀ w ∈ ws, env.setErr w.1 w.2 = none := by
  induction ws generalizing d with
  | nil => simp [runSteps]
  | cons w ws ih =>
    simp only [List.map_cons, runSteps, List.mem_cons, forall_eq_or_imp]
    cases h : env.setErr w.1 w.2 with
    | none =>
      rw [Set_eq_of_none env d w.1 w.2 h]
      simpa using ih (d.write w.1 w.2)
    | some e =>
      rw [Set_eq_of_some env d w.1 w.2 e h]
      simp

/-- A run of `d.Set` statements stops at the first refused write: it returns that error and
the record as the writes before it left it. -/
theorem runSteps_stop {σ : Type} (env : Env σ) (pre post : List (String × GoValue))
    (w : String × GoValue) (e : GoError) (d : ResourceData)
    (hpre : ∀ x ∈ pre, env.setErr x.1 x.2 = none) (hw : env.setErr w.1 w.2 = some e) :
    runSteps ((pre ++ w :: post).map (fun w d => d.Set env w.1 w.2)) d
      = (some e, pre.foldl (fun d w => d.write w.1 w.2) d) := by
  induction pre generalizing d with
  | nil =>
    simp only [List.nil_append, List.map_cons, runSteps, List.foldl_nil]
    rw [Set_eq_of_some env d w.1 w.2 e hw]
  | cons x pre ih =>
    have hx : env.setErr x.1 x.2 = none := hpre x (List.mem_cons_self _ _)
    simp only [List.cons_append, List.map_cons, runSteps, List.foldl_cons]
    rw [Set_eq_of_none env d x.1 x.2 hx]
    exact ih (d.write x.1 x.2) (fun y hy => hpre y (List.mem_cons_of_mem _ hy))

theorem foldl_write_id (ws : List (String × GoValue)) (d : ResourceData) :
    (ws.foldl (fun d w => d.write w.1 w.2) d).id = d.id := by
  induction ws generalizing d with
  | nil => rfl
  | cons w ws ih =>
    rw [List.foldl_cons, ih]
    rfl

/-- Writes leave the attributes they do not name as they were. -/
theorem foldl_write_attrs_of_not_mem (ws : List (String × GoValue)) (d : ResourceData)
    (k : String) (hk : k ∉ ws.map Prod.fst) :
    (ws.foldl (fun d w => d.write w.1 w.2) d).attrs k = d.attrs k := by
  induction ws generalizing d with
  | nil => rfl
  | cons w ws ih =>
    simp only [List.map_cons, List.mem_cons, not_or] at hk
    rw [List.foldl_cons, ih _ hk.2]
    simp [ResourceData.write, Function.update, hk.1]

/-- The same writes on two records that agree on every attribute the writes do not name
leave the same attributes. -/
theorem foldl_write_attrs_congr (ws : List (String × GoValue)) (d1 d2 : ResourceData)
    (h : ∀ k, k ∉ ws.map Prod.fst → d1.attrs k = d2.attrs k) :
    (ws.foldl (fun d w => d.write w.1 w.2) d1).attrs
      = (ws.foldl (fun d w => d.write w.1 w.2) d2).attrs := by
  induction ws generalizing d1 d2 with
  | nil =>
    funext k
    exact h k (by simp)
  | cons w ws ih =>
    rw [List.foldl_cons, List.foldl_cons]
    apply ih
    intro k hk
    by_cases hkw : k = w.1
    · simp [ResourceData.write, Function.update, hkw]
    · have := h k (by simp [hkw, hk])
      simp [ResourceData.write, Function.update, hkw, this]

/-- The member list of a set depends on the members only, not on the order or the
repetitions of the list that built the set. -/
theorem setList_congr (l1 l2 : List String) (h : ∀ x, x ∈ l1 ↔ x ∈ l2) :
    setList l1 = setList l2 := by
  unfold setList
  apply List.eq_of_perm_of_sorted (r := fun a b : String => a ≤ b)
  · apply (List.perm_ext_iff_of_nodup (List.nodup_dedup _) (List.nodup_dedup _)).2
    intro x
    simp [List.mem_dedup, List.mem_insertionSort, h x]
  · exact (List.sorted_insertionSort _ l1).sublist (List.dedup_sublist _)
  · exact (List.sorted_insertionSort _ l2).sublist (List.dedup_sublist _)

theorem optionalStringPointer_congr (d1 d2 : ResourceData) (key : String)
    (h : d1.attrs key = d2.attrs key) :
    optionalStringPointer d1 key = optionalStringPointer d2 key := by
  unfold optionalStringPointer ResourceData.GetOk
  rw [h]

theorem GetString_congr (d1 d2 : ResourceData) (key : String)
    (h : d1.attrs key = d2.attrs key) : d1.GetString key = d2.GetString key := by
  unfold ResourceData.GetString
  rw [h]

theorem contactEmailListForAPI_congr (d1 d2 : ResourceData) (key : String) (b : Bool)
    (l1 l2 : List String) (h1 : d1.attrs key = some (Attr.set l1))
    (h2 : d2.attrs key = some (Attr.set l2)) (h : ∀ x, x ∈ l1 ↔ x ∈ l2) :
    contactEmailListForAPI d1 key b = contactEmailListForAPI d2 key b := by
  have hl := setList_congr l1 l2 h
  unfold contactEmailListForAPI ResourceData.GetOk
  rw [h1, h2]
  simp only [hl]
  cases (setList l2).isEmpty
  · simp only [Bool.not_false, hl]
  · rfl

theorem GetSetList_congr (d1 d2 : ResourceData) (key : String)
    (l1 l2 : List String) (h1 : d1.attrs key = some (Attr.set l1))
    (h2 : d2.attrs key = some (Attr.set l2)) (h : ∀ x, x ∈ l1 ↔ x ∈ l2) :
    d1.GetSetList key = d2.GetSetList key := by
  unfold ResourceData.GetSetList
  rw [h1, h2]
  exact setList_congr l1 l2 h

theorem readWrites_keys (bg : BillingGroup) :
    (readWrites bg).map Prod.fst = ["name", "account_id", "card_id", "vat_id",
      "billing_currency", "billing_extra_text", "billing_emails", "company", "address_lines",
      "country_code", "city", "zip_code", "state"] := rfl

/-- The first component of an identifier and the rest after the first separator give the
identifier back. -/
theorem takeWhile_sep_dropWhile (cs : List Char) (h : resourceIDSeparator ∈ cs) :
    cs.takeWhile (fun c => c != resourceIDSeparator) ++ resourceIDSeparator ::
      (cs.dropWhile (fun c => c != resourceIDSeparator)).drop 1 = cs := by
  induction cs with
  | nil => simp at h
  | cons c cs ih =>
    by_cases hc : c = resourceIDSeparator
    · have hb : (c != resourceIDSeparator) = false := by simp [hc]
      simp [List.takeWhile_cons, List.dropWhile_cons, hb, hc]
    · have hb : (c != resourceIDSeparator) = true := by simp [hc]
      have hmem : resourceIDSeparator ∈ cs := by
        rcases List.mem_cons.1 h with h1 | h1
        · exact absurd h1.symm hc
        · exact h1
      have := ih hmem
      simp only [List.takeWhile_cons, List.dropWhile_cons, hb, if_true, List.cons_append]
      rw [this]

/-- Splitting at the first separator recovers a separator-free first component. -/
theorem takeWhile_dropWhile_append (a b : List Char) (ha : resourceIDSeparator ∉ a) :
    (a ++ resourceIDSeparator :: b).takeWhile (fun c => c != resourceIDSeparator) = a ∧
    ((a ++ resourceIDSeparator :: b).dropWhile (fun c => c != resourceIDSeparator)).drop 1
      = b := by
  induction a with
  | nil => simp [List.takeWhile_cons, List.dropWhile_cons]
  | cons c a ih =>
    simp only [List.mem_cons, not_or] at ha
    have hc : c ≠ resourceIDSeparator := fun h => ha.1 h.symm
    have hb : (c != resourceIDSeparator) = true := by simp [hc]
    have := ih ha.2
    simp only [List.cons_append, List.takeWhile_cons, List.dropWhile_cons, hb, if_true]
    exact ⟨by rw [this.1], this.2⟩

/-- The rest after the first separator of a three-component identifier still holds a
separator. -/
theorem sep_mem_rest (a b t : List Char) :
    resourceIDSeparator ∈
      ((a ++ resourceIDSeparator :: (b ++ resourceIDSeparator :: t)).dropWhile
        (fun c => c != resourceIDSeparator)).drop 1 := by
  induction a with
  | nil => simp [List.dropWhile_cons]
  | cons c a ih =>
    by_cases hc : c = resourceIDSeparator
    · have hb : (c != resourceIDSeparator) = false := by simp [hc]
      simp [List.dropWhile_cons, hb]
    · have hb : (c != resourceIDSeparator) = true := by simp [hc]
      simpa only [List.cons_append, List.dropWhile_cons, hb, if_true] using ih

/-! ## The claims, continued -/

/-- C11. Set-typed attributes are order-independent. Two records with the same identifier
that agree on every other attribute and hold the same members of `billing_emails` and of
`address_lines`, listed in any order, make Create and Update build and send the same request;
and a successful Read of the same remote response leaves the two records equal, so the stored
`billing_emails` and `address_lines` do not differ. -/
theorem set_attributes_order_independent {σ : Type} (env : Env σ) (d1 d2 : ResourceData)
    (s : σ) (e1 e2 a1 a2 : List String) (hid : d1.id = d2.id)
    (hrest : ∀ k, k ≠ "billing_emails" → k ≠ "address_lines" → d1.attrs k = d2.attrs k)
    (he1 : d1.attrs "billing_emails" = some (Attr.set e1))
    (he2 : d2.attrs "billing_emails" = some (Attr.set e2))
    (hes : ∀ x, x ∈ e1 ↔ x ∈ e2)
    (ha1 : d1.attrs "address_lines" = some (Attr.set a1))
    (ha2 : d2.attrs "address_lines" = some (Attr.set a2))
    (has : ∀ x, x ∈ a1 ↔ x ∈ a2) :
    (∀ c, createRequest d1 c = createRequest d2 c) ∧
    (∀ c, updateRequest d1 c = updateRequest d2 c) ∧
    (resourceBillingGroupCreate env d1 s).calls.filterMap Call.request
      = (resourceBillingGroupCreate env d2 s).calls.filterMap Call.request ∧
    (resourceBillingGroupUpdate env d1 s).calls.filterMap Call.request
      = (resourceBillingGroupUpdate env d2 s).calls.filterMap Call.request ∧
    (∀ bg s1, env.BillingGroupGet d1.Id s = (Except.ok bg, s1) →
      Diagnostics.HasError (resourceBillingGroupRead env d1 s).diags = false →
      Diagnostics.HasError (resourceBillingGroupRead env d2 s).diags = false ∧
      (resourceBillingGroupRead env d1 s).d.attrs "billing_emails"
        = (resourceBillingGroupRead env d2 s).d.attrs "billing_emails" ∧
      (resourceBillingGroupRead env d1 s).d.attrs "address_lines"
        = (resourceBillingGroupRead env d2 s).d.attrs "address_lines" ∧
      (resourceBillingGroupRead env d1 s).d = (resourceBillingGroupRead env d2 s).d) := by
  have hcreate : ∀ c, createRequest d1 c = createRequest d2 c := by
    intro c
    simp only [createRequest,
      GetString_congr d1 d2 "name" (hrest _ (by decide) (by decide)),
      optionalStringPointer_congr d1 d2 "account_id" (hrest _ (by decide) (by decide)),
      optionalStringPointer_congr d1 d2 "vat_id" (hrest _ (by decide) (by decide)),
      optionalStringPointer_congr d1 d2 "billing_currency" (hrest _ (by decide) (by decide)),
      optionalStringPointer_congr d1 d2 "billing_extra_text" (hrest _ (by decide) (by decide)),
      optionalStringPointer_congr d1 d2 "company" (hrest _ (by decide) (by decide)),
      optionalStringPointer_congr d1 d2 "country_code" (hrest _ (by decide) (by decide)),
      optionalStringPointer_congr d1 d2 "city" (hrest _ (by decide) (by decide)),
      optionalStringPointer_congr d1 d2 "zip_code" (hrest _ (by decide) (by decide)),
      optionalStringPointer_congr d1 d2 "state" (hrest _ (by decide) (by decide)),
      contactEmailListForAPI_congr d1 d2 "billing_emails" true e1 e2 he1 he2 hes,
      GetSetList_congr d1 d2 "address_lines" a1 a2 ha1 ha2 has]
  have hcard : d1.GetString "card_id" = d2.GetString "card_id" :=
    GetString_congr d1 d2 "card_id" (hrest _ (by decide) (by decide))
  have hId : d1.Id = d2.Id := hid
  refine ⟨hcreate, hcreate, ?_, ?_, ?_⟩
  · rw [resourceBillingGroupCreate_requests, resourceBillingGroupCreate_requests, hcard]
    cases (getLongCardID env (d2.GetString "card_id") s).1 with
    | error e => rfl
    | ok c => simp only [hcreate c]
  · rw [resourceBillingGroupUpdate_requests, resourceBillingGroupUpdate_requests, hcard]
    cases (getLongCardID env (d2.GetString "card_id") s).1 with
    | error e => rfl
    | ok c => simp only [show updateRequest d1 c = updateRequest d2 c from hcreate c]
  · intro bg s1 hget hok
    have hget2 : env.BillingGroupGet d2.Id s = (Except.ok bg, s1) := by rw [← hId]; exact hget
    have hrun : (runSteps (readSteps env bg) d1).1 = none := by
      simp only [resourceBillingGroupRead, hget, HasError_FromErr] at hok
      cases h : (runSteps (readSteps env bg) d1).1 with
      | none => rfl
      | some e => simp [h] at hok
    rw [readSteps_eq] at hrun
    have hall := (runSteps_none_iff env (readWrites bg) d1).1 hrun
    have hrun2 := (runSteps_none_iff env (readWrites bg) d2).2 hall
    have hd1 : (resourceBillingGroupRead env d1 s).d
        = (readWrites bg).foldl (fun d w => d.write w.1 w.2) d1 := by
      simp only [resourceBillingGroupRead, hget, readSteps_eq]
      exact runSteps_ok env _ d1 hrun
    have hd2 : (resourceBillingGroupRead env d2 s).d
        = (readWrites bg).foldl (fun d w => d.write w.1 w.2) d2 := by
      simp only [resourceBillingGroupRead, hget2, readSteps_eq]
      exact runSteps_ok env _ d2 hrun2
    have heq : (resourceBillingGroupRead env d1 s).d = (resourceBillingGroupRead env d2 s).d := by
      rw [hd1, hd2]
      apply ResourceData.eq_of
      · rw [foldl_write_id, foldl_write_id, hid]
      · apply foldl_write_attrs_congr
        intro k hk
        rw [readWrites_keys] at hk
        simp only [List.mem_cons, List.mem_nil_iff, or_false, not_or] at hk
        exact hrest k hk.2.2.2.2.2.2.1 hk.2.2.2.2.2.2.2.2.1
    refine ⟨?_, by rw [heq], by rw [heq], heq⟩
    simp only [resourceBillingGroupRead, hget2, readSteps_eq, HasError_FromErr, hrun2]
    rfl

/-- Witness for C11: the same two emails and address lines, listed in opposite orders. -/
theorem set_attributes_order_independent_witness :
    createRequest (setRecord ["a@x.io", "b@x.io"] ["1 Main St", "Suite 2"]) none
      = createRequest (setRecord ["b@x.io", "a@x.io"] ["Suite 2", "1 Main St"]) none ∧
    (resourceBillingGroupRead envOk
        (setRecord ["a@x.io", "b@x.io"] ["1 Main St", "Suite 2"]) ()).d
      = (resourceBillingGroupRead envOk
        (setRecord ["b@x.io", "a@x.io"] ["Suite 2", "1 Main St"]) ()).d :=
  have h := set_attributes_order_independent envOk
    (setRecord ["a@x.io", "b@x.io"] ["1 Main St", "Suite 2"])
    (setRecord ["b@x.io", "a@x.io"] ["Suite 2", "1 Main St"]) ()
    ["a@x.io", "b@x.io"] ["b@x.io", "a@x.io"] ["1 Main St", "Suite 2"] ["Suite 2", "1 Main St"]
    rfl (fun k h1 h2 => by simp [setRecord, h1, h2]) rfl rfl (fun x => by simp [or_comm])
    rfl rfl (fun x => by simp [or_comm])
  ⟨h.1 none, (h.2.2.2.2 acme () rfl rfl).2.2.2⟩

/-- C13. Composite identifiers round-trip. For every identifier formed by joining a project,
a service name and a topic name with the separator, joining the three components that
`splitResourceID3` returns gives the identifier back; when the project and the service name
hold no separator the components themselves come back; and splitting is a function of the
identifier alone. -/
theorem splitResourceID3_round_trip :
    (∀ project serviceName topicName : String,
      joinResourceID3
        (splitResourceID3 (joinResourceID3 project serviceName topicName)).1
        (splitResourceID3 (joinResourceID3 project serviceName topicName)).2.1
        (splitResourceID3 (joinResourceID3 project serviceName topicName)).2.2
      = joinResourceID3 project serviceName topicName) ∧
    (∀ project serviceName topicName : String,
      resourceIDSeparator ∉ project.data → resourceIDSeparator ∉ serviceName.data →
      splitResourceID3 (joinResourceID3 project serviceName topicName)
        = (project, serviceName, topicName)) ∧
    (∀ id1 id2 : String, id1 = id2 → splitResourceID3 id1 = splitResourceID3 id2) := by
  refine ⟨?_, ?_, ?_⟩
  · intro p sv t
    have hrest := sep_mem_rest p.data sv.data t.data
    have hmem : resourceIDSeparator
        ∈ p.data ++ resourceIDSeparator :: (sv.data ++ resourceIDSeparator :: t.data) := by
      simp
    simp only [splitResourceID3, joinResourceID3]
    rw [takeWhile_sep_dropWhile _ hrest, takeWhile_sep_dropWhile _ hmem]
  · intro p sv t hp hs
    have h1 := takeWhile_dropWhile_append p.data
      (sv.data ++ resourceIDSeparator :: t.data) hp
    have h2 := takeWhile_dropWhile_append sv.data t.data hs
    simp only [splitResourceID3, joinResourceID3, h1.1, h1.2, h2.1, h2.2]
  · intro id1 id2 h
    rw [h]

/-- Witness for C13: the identifier of a topic in a service of a project. -/
theorem splitResourceID3_round_trip_witness :
    splitResourceID3 (joinResourceID3 "proj" "kafka-1" "events")
      = ("proj", "kafka-1", "events") :=
  splitResourceID3_round_trip.2.1 "proj" "kafka-1" "events" (by decide) (by decide)

/-- C14. A refused field write stops Read at once. When the get call answered and the write
of some attribute is refused while all the writes before it, in the source order name,
account_id, card_id, vat_id, billing_currency, billing_extra_text, billing_emails, company,
address_lines, country_code, city, zip_code, state, went through, Read returns one error
diagnostic carrying the write error, the record holds exactly the writes before the refused
one, and neither the refused attribute nor any later one has been written. -/
theorem resourceBillingGroupRead_write_failure {σ : Type} (env : Env σ) (d : ResourceData)
    (s s1 : σ) (bg : BillingGroup) (pre post : List (String × GoValue))
    (w : String × GoValue) (e : GoError)
    (hget : env.BillingGroupGet d.Id s = (Except.ok bg, s1))
    (hsplit : readWrites bg = pre ++ w :: post)
    (hpre : ∀ x ∈ pre, env.setErr x.1 x.2 = none)
    (hw : env.setErr w.1 w.2 = some e) :
    (readWrites bg).map Prod.fst = ["name", "account_id", "card_id", "vat_id",
      "billing_currency", "billing_extra_text", "billing_emails", "company", "address_lines",
      "country_code", "city", "zip_code", "state"] ∧
    (resourceBillingGroupRead env d s).diags
      = [{ severity := Severity.Error, summary := e.text }] ∧
    (resourceBillingGroupRead env d s).d = pre.foldl (fun d w => d.write w.1 w.2) d ∧
    (∀ x ∈ w :: post, (resourceBillingGroupRead env d s).d.attrs x.1 = d.attrs x.1) ∧
    (resourceBillingGroupRead env d s).d.id = d.id := by
  have hrun := runSteps_stop env pre post w e d hpre hw
  rw [← hsplit, ← readSteps_eq] at hrun
  have hd : (resourceBillingGroupRead env d s).d
      = pre.foldl (fun d w => d.write w.1 w.2) d := by
    simp only [resourceBillingGroupRead, hget, hrun]
  refine ⟨rfl, ?_, hd, ?_, ?_⟩
  · simp only [resourceBillingGroupRead, hget, hrun, diag.FromErr]
  · intro x hx
    rw [hd]
    apply foldl_write_attrs_of_not_mem
    have hnodup : ((readWrites bg).map Prod.fst).Nodup := by
      rw [readWrites_keys]
      decide
    rw [hsplit, List.map_append] at hnodup
    have hdisj := (List.nodup_append.1 hnodup).2.2
    intro hmem
    exact hdisj hmem (List.mem_map_of_mem Prod.fst hx)
  · rw [hd, foldl_write_id]

/-- Witness for C14: `account_id`, the second attribute, refuses the write. -/
theorem resourceBillingGroupRead_write_failure_witness :
    (resourceBillingGroupRead envWriteFails boundRecord ()).diags
      = [{ severity := Severity.Error, summary := "cannot set account_id" }] ∧
    (resourceBillingGroupRead envWriteFails boundRecord ()).d
      = boundRecord.write "name" (GoValue.string "acme") ∧
    (resourceBillingGroupRead envWriteFails boundRecord ()).d.attrs "state"
      = boundRecord.attrs "state" :=
  have h := resourceBillingGroupRead_write_failure envWriteFails boundRecord () () acme
    [("name", GoValue.string "acme")] ((readWrites acme).drop 2)
    ("account_id", GoValue.stringPtr none)
    { text := "cannot set account_id", notFound := false } rfl rfl
    (fun x hx => by
      rw [List.mem_singleton.1 hx]
      rfl)
    (by decide)
  ⟨h.2.1, h.2.2.1, h.2.2.2.1 ("state", GoValue.stringPtr none) (by decide)⟩

/-- C16. When the card lookup fails, neither Create nor Update goes on: each returns one
error diagnostic carrying the lookup error, leaves the record (identifier included) as it
was, and issues no call besides those of the lookup, so no remote create, update or get call
is made and Read is not run. -/
theorem card_lookup_failure_stops_handlers {σ : Type} (env : Env σ) (d : ResourceData)
    (s s1 : σ) (e : GoError) (cs : List Call)
    (hcard : getLongCardID env (d.GetString "card_id") s = (Except.error e, s1, cs)) :
    ((resourceBillingGroupCreate env d s).diags
        = [{ severity := Severity.Error, summary := "Error getting long card id: " ++ e.text }] ∧
      (resourceBillingGroupCreate env d s).d = d ∧
      (resourceBillingGroupCreate env d s).remote = s1 ∧
      (resourceBillingGroupCreate env d s).calls = cs ∧
      (resourceBillingGroupCreate env d s).calls.filterMap Call.request = [] ∧
      (∀ id, Call.bgGet id ∉ (resourceBillingGroupCreate env d s).calls)) ∧
    ((resourceBillingGroupUpdate env d s).diags
        = [{ severity := Severity.Error, summary := "Error getting long card id: " ++ e.text }] ∧
      (resourceBillingGroupUpdate env d s).d = d ∧
      (resourceBillingGroupUpdate env d s).remote = s1 ∧
      (resourceBillingGroupUpdate env d s).calls = cs ∧
      (resourceBillingGroupUpdate env d s).calls.filterMap Call.request = [] ∧
      (∀ id, Call.bgGet id ∉ (resourceBillingGroupUpdate env d s).calls)) := by
  have hcs := getLongCardID_calls env (d.GetString "card_id") s
  rw [hcard] at hcs
  have hreq : cs.filterMap Call.request = [] := by
    rw [List.filterMap_eq_nil_iff]
    intro x hx
    rw [hcs x hx]
    rfl
  have hget : ∀ id, Call.bgGet id ∉ cs := by
    intro id hmem
    cases hcs _ hmem
  constructor
  · simp only [resourceBillingGroupCreate, hcard, diag.Errorf, true_and]
    exact ⟨hreq, hget⟩
  · simp only [resourceBillingGroupUpdate, hcard, diag.Errorf, true_and]
    exact ⟨hreq, hget⟩

/-- Witness for C16: a record naming a card, on a remote whose card lookup fails. -/
theorem card_lookup_failure_stops_handlers_witness :
    ((resourceBillingGroupCreate envCardFails cardRecord ()).diags
        = [{ severity := Severity.Error,
             summary := "Error getting long card id: " ++ boom.text }] ∧
      (resourceBillingGroupCreate envCardFails cardRecord ()).d = cardRecord ∧
      (resourceBillingGroupCreate envCardFails cardRecord ()).remote = () ∧
      (resourceBillingGroupCreate envCardFails cardRecord ()).calls = [Call.cardGet "card-1"] ∧
      (resourceBillingGroupCreate envCardFails cardRecord ()).calls.filterMap Call.request
        = [] ∧
      (∀ id, Call.bgGet id ∉ (resourceBillingGroupCreate envCardFails cardRecord ()).calls)) ∧
    ((resourceBillingGroupUpdate envCardFails cardRecord ()).diags
        = [{ severity := Severity.Error,
             summary := "Error getting long card id: " ++ boom.text }] ∧
      (resourceBillingGroupUpdate envCardFails cardRecord ()).d = cardRecord ∧
      (resourceBillingGroupUpdate envCardFails cardRecord ()).remote = () ∧
      (resourceBillingGroupUpdate envCardFails cardRecord ()).calls = [Call.cardGet "card-1"] ∧
      (resourceBillingGroupUpdate envCardFails cardRecord ()).calls.filterMap Call.request
        = [] ∧
      (∀ id, Call.bgGet id ∉ (resourceBillingGroupUpdate envCardFails cardRecord ()).calls)) :=
  card_lookup_failure_stops_handlers envCardFails cardRecord () () boom [Call.cardGet "card-1"]
    rfl

end Aiven
